import Mathlib

set_option linter.unusedVariables false

/-!
Shallow embedding of the transaction-persistence reconciler and the
boundary services of the molly-way bridge front-end:

* `saveTransaction` / `runSaveEffect` embed the save-on-completion effect of
  `src/components/bridge/CompletedTransactionSaver.tsx` (the first `useEffect`
  and the inner async `saveTransaction`);
* `handleExpiredStatus` and `shouldCheckExpiredStatus` embed the expired-order
  recovery check of the same component;
* `calculatePrice` embeds the price-quotation function of
  `src/hooks/useBridgeService.ts`;
* `handleSwapCurrencies` embeds the currency-swap handler of the bridge form
  component.

The persistent store (Supabase `bridge_transactions` table) is modelled as a
list of records plus injectable faults for its three operations; asynchronous
I/O is modelled by explicit state passing, and the race against the fixed
2-second timer of the recovery check is modelled by the query's resolution
time as an explicit parameter.
-/

/-- A JavaScript number as used by this code: a rational value or NaN.
(The source never produces Infinity on the paths modelled here; division by
zero, which cannot arise for the constant divisors used, is mapped to NaN.) -/
inductive JsNum where
  | num (q : Rat)
  | nan
deriving DecidableEq, Repr

/-- Numeric value of a list of decimal digit characters. -/
def digitsVal (ds : List Char) : Nat :=
  ds.foldl (fun a c => a * 10 + (c.toNat - 48)) 0

/-- Model of the JavaScript builtin `parseFloat`: skip leading whitespace,
optional sign, decimal digits with an optional fractional part; NaN when no
digit is found.  (Exponent suffixes and the literal "Infinity" are not
modelled; they cannot change the sign of the parsed value, which is the only
thing the guards in this code observe.) -/
def parseFloatJs (s : String) : JsNum :=
  let cs := s.toList.dropWhile (fun c => c = ' ' ∨ c = '\t' ∨ c = '\n' ∨ c = '\r')
  let sign : Int := if cs.head? = some '-' then -1 else 1
  let cs := match cs with
    | '-' :: rest => rest
    | '+' :: rest => rest
    | _ => cs
  let intDs := cs.takeWhile Char.isDigit
  let rest := cs.dropWhile Char.isDigit
  let fracDs := match rest with
    | '.' :: r => r.takeWhile Char.isDigit
    | _ => []
  if intDs.isEmpty ∧ fracDs.isEmpty then JsNum.nan
  else
    JsNum.num (mkRat
      (sign * (digitsVal intDs * 10 ^ fracDs.length + digitsVal fracDs))
      (10 ^ fracDs.length))

/-- JavaScript comparison `x <= 0` (false on NaN). -/
def jsLe0 : JsNum → Bool
  | .num q => decide (q ≤ 0)
  | .nan => false

/-- Does the needle occur as a prefix at some position of the haystack?
(Structural recursion over the haystack.) -/
def jsIncludesAux (needle : List Char) : List Char → Bool
  | [] => needle.isEmpty
  | h :: t => needle.isPrefixOf (h :: t) || jsIncludesAux needle t

/-- JavaScript `String.prototype.includes`: the needle occurs as a contiguous
substring (the empty needle always occurs, as in JavaScript). -/
def jsIncludes (s needle : String) : Bool :=
  jsIncludesAux needle.toList s.toList

/-- The opaque backend payload stored in `rawApiResponse` / `raw_api_response`.
Only its optional `status` field is ever inspected (`rawApiResponse?.status`);
`payload` stands for the rest of the JSON object. -/
structure RawResp where
  status : Option String
  payload : String
deriving DecidableEq, Repr

/-- Order details as consumed by `CompletedTransactionSaver` (fields as used by
the component and listed in the spec's data model).  String fields use `""`
for the JavaScript falsy case; nullable fields are `Option`. -/
structure OrderDetails where
  orderId : String
  ffOrderToken : String
  fromCurrency : String
  toCurrency : String
  depositAmount : String
  destinationAddress : String
  depositAddress : String
  expiresAt : Option String
  currentStatus : String
  rawApiResponse : Option RawResp
deriving DecidableEq, Repr

/-- Read-only client environment (`navigator` / `window`) used to build the
metadata snapshot; `nowIso` is `new Date().toISOString()`. -/
structure ClientEnv where
  userAgent : String
  languages : Option (List String)
  language : String
  innerWidth : Nat
  innerHeight : Nat
  platform : String
  vendor : String
  nowIso : String
deriving DecidableEq, Repr

/-- The `client_metadata` snapshot inserted with a new record. -/
structure ClientMetadata where
  ip : String
  user_agent : String
  languages : List String
  device_width : Nat
  device_height : Nat
  device_platform : String
  device_vendor : String
  simulation : Bool
deriving DecidableEq, Repr

/-- `clientMetadata` object construction (lines 114-125 of the component):
`languages: Array.from(navigator.languages || [navigator.language])`. -/
def mkClientMetadata (env : ClientEnv) (simulateSuccess : Bool) : ClientMetadata :=
  { ip := "client-side"
    user_agent := env.userAgent
    languages := match env.languages with
      | some ls => ls
      | none => [env.language]
    device_width := env.innerWidth
    device_height := env.innerHeight
    device_platform := env.platform
    device_vendor := env.vendor
    simulation := simulateSuccess }

/-- A store (PostgREST) error; only its message is inspected. -/
structure DbError where
  message : String
deriving DecidableEq, Repr

/-- The duplicate-key classification of lines 150: `error.message` includes
"duplicate key" or "unique constraint". -/
def isUniquenessViolation (e : DbError) : Bool :=
  jsIncludes e.message "duplicate key" || jsIncludes e.message "unique constraint"

/-- Message produced by the store itself when the unique key on `ff_order_id`
is violated by an insert. -/
def pgDuplicateKeyMessage : String :=
  "duplicate key value violates unique constraint"

/-- A row of the `bridge_transactions` table, with the columns this component
writes and reads. -/
structure DbRecord where
  ff_order_id : String
  ff_order_token : String
  from_currency : String
  to_currency : String
  amount : JsNum
  destination_address : String
  status : String
  deposit_address : String
  client_metadata : ClientMetadata
  initial_rate : Nat
  expiration_time : String
  raw_api_response : Option RawResp
deriving DecidableEq, Repr

/-- The store: the table contents plus injectable faults for each operation
(`none` = the operation succeeds at the store level). -/
structure Store where
  db : List DbRecord
  selectFault : Option DbError
  insertFault : Option DbError
  updateFault : Option DbError
deriving DecidableEq, Repr

/-- `select(...).eq('ff_order_id', oid).limit(1)`. -/
def dbSelect (s : Store) (oid : String) : Except DbError (List DbRecord) :=
  match s.selectFault with
  | some e => .error e
  | none => .ok ((s.db.filter (fun r => r.ff_order_id == oid)).take 1)

/-- `insert(record)`: the store enforces the unique key on `ff_order_id`.
Returns the new table contents and the error, if any. -/
def dbInsert (s : Store) (r : DbRecord) : List DbRecord × Option DbError :=
  match s.insertFault with
  | some e => (s.db, some e)
  | none =>
    if s.db.any (fun q => q.ff_order_id == r.ff_order_id) then
      (s.db, some ⟨pgDuplicateKeyMessage⟩)
    else (s.db ++ [r], none)

/-- `update({status, raw_api_response}).eq('ff_order_id', oid)`. -/
def dbUpdate (s : Store) (oid sts : String) (raw : RawResp) :
    List DbRecord × Option DbError :=
  match s.updateFault with
  | some e => (s.db, some e)
  | none =>
    (s.db.map (fun r =>
      if r.ff_order_id == oid then
        { r with status := sts, raw_api_response := some raw }
      else r), none)

/-- Number of rows for a given `ff_order_id`. -/
def countOrder (db : List DbRecord) (oid : String) : Nat :=
  (db.filter (fun r => r.ff_order_id == oid)).length

/-- The first row for a given `ff_order_id`, in table order (`results[0]` of a
filtered select). -/
def firstMatch (db : List DbRecord) (oid : String) : Option DbRecord :=
  (db.filter (fun r => r.ff_order_id == oid)).head?

/-- A `toast(...)` notification. -/
structure Toast where
  title : String
  description : String
  variant : String
deriving DecidableEq, Repr

def toastCheckFailed : Toast :=
  ⟨"Database Error", "Failed to check for existing transaction", "destructive"⟩

def toastSaveFailed : Toast :=
  ⟨"Database Error", "Failed to save transaction", "destructive"⟩

/-- The outer catch-all of `saveTransaction`; unreachable in this embedding
because every modelled store operation returns its error as a value. -/
def toastUnexpected : Toast :=
  ⟨"Unexpected Error", "An unexpected error occurred while saving the transaction",
    "destructive"⟩

def toastCheckStatusFailed : Toast :=
  ⟨"Database Error", "Failed to check for transaction status", "destructive"⟩

def toastRecoveryError : Toast :=
  ⟨"Error", "Failed to check transaction status", "destructive"⟩

/-- A store operation issued by the save flow, for the effect trace. -/
inductive StoreOp where
  | select (oid : String)
  | insert (oid : String)
  | update (oid : String)
deriving DecidableEq, Repr

/-- Observable state threaded through the save effect: the store, the
session-scoped saved flag, the emitted notifications and the trace of store
operations issued. -/
structure SaveState where
  store : Store
  transactionSaved : Bool
  toasts : List Toast
  ops : List StoreOp
deriving DecidableEq, Repr

/-- The record built for the insert (lines 130-146); `amount` is
`parseFloat(orderDetails.depositAmount)`, `expiration_time` falls back to the
current time when `expiresAt` is absent. -/
def mkInsertRecord (od : OrderDetails) (env : ClientEnv)
    (simulateSuccess : Bool) : DbRecord :=
  { ff_order_id := od.orderId
    ff_order_token := od.ffOrderToken
    from_currency := od.fromCurrency
    to_currency := od.toCurrency
    amount := parseFloatJs od.depositAmount
    destination_address := od.destinationAddress
    status := "completed"
    deposit_address := od.depositAddress
    client_metadata := mkClientMetadata env simulateSuccess
    initial_rate := 0
    expiration_time := match od.expiresAt with
      | some t => t
      | none => env.nowIso
    raw_api_response := od.rawApiResponse }

/-- The inner async `saveTransaction` (lines 68-176): select by
`ff_order_id`; on select error toast and stop; if a row exists, update its
status and raw response (an update error is only logged) and set the saved
flag; otherwise insert a fresh record, treating a uniqueness violation as
success and toasting on any other insert error. -/
def saveTransaction (od : OrderDetails) (env : ClientEnv)
    (simulateSuccess : Bool) (st : SaveState) : SaveState :=
  let oid := od.orderId
  let st0 := { st with ops := st.ops ++ [StoreOp.select oid] }
  match dbSelect st.store oid with
  | .error _ => { st0 with toasts := st0.toasts ++ [toastCheckFailed] }
  | .ok existing =>
    if existing.length > 0 then
      match od.rawApiResponse with
      | some raw =>
        let st1 := { st0 with ops := st0.ops ++ [StoreOp.update oid] }
        let upd := dbUpdate st.store oid "completed" raw
        { st1 with store := { st.store with db := upd.1 }, transactionSaved := true }
      | none => { st0 with transactionSaved := true }
    else
      let newRec := mkInsertRecord od env simulateSuccess
      let st1 := { st0 with ops := st0.ops ++ [StoreOp.insert oid] }
      let ins := dbInsert st.store newRec
      match ins.2 with
      | none =>
        { st1 with store := { st.store with db := ins.1 }, transactionSaved := true }
      | some e =>
        if isUniquenessViolation e then
          { st1 with store := { st.store with db := ins.1 }, transactionSaved := true }
        else
          { st1 with store := { st.store with db := ins.1 },
                     toasts := st1.toasts ++ [toastSaveFailed] }

/-- The save-on-completion effect (lines 37-184): the guard chain — simulate
mode, already saved, missing order details or id, status not `completed`,
missing raw response — each of which skips silently; otherwise run
`saveTransaction`. -/
def runSaveEffect (simulateSuccess : Bool) (od? : Option OrderDetails)
    (env : ClientEnv) (st : SaveState) : SaveState :=
  if simulateSuccess then st
  else if st.transactionSaved then st
  else match od? with
    | none => st
    | some od =>
      if od.orderId = "" then st
      else if od.currentStatus ≠ "completed" then st
      else match od.rawApiResponse with
        | none => st
        | some _ => saveTransaction od env simulateSuccess st

/-- Outcome of one run of `handleExpiredStatus`: its return value, the final
value passed to `setCheckingDb`, the argument passed to `onOrderDetailsUpdate`
(if it was called), and the notifications it emitted.  The fixed 200 ms UI
delays before the terminal calls are not observable here. -/
structure RecoveryResult where
  recovered : Bool
  checkingDb : Bool
  orderUpdate : Option OrderDetails
  toasts : List Toast
deriving DecidableEq, Repr

/-- The fixed timeout the recovery query is raced against (line 221). -/
def dbQueryTimeoutMs : Nat := 2000

/-- Whether the race of lines 219-228 is won by the timeout: the query's
resolution time (`none` = it never resolves) reaches the 2-second timer. -/
def raceTimedOut (queryResolveMs : Option Nat) : Bool :=
  match queryResolveMs with
  | some t => dbQueryTimeoutMs ≤ t
  | none => true

/-- `handleExpiredStatus` (lines 200-289): guard on order id and token; race
the select by `ff_order_id` against the 2-second timer (a timeout rejection is
caught by the surrounding catch); on select error toast and return false; on a
non-empty result synthesize the completed order view and pass it to
`onOrderDetailsUpdate`; otherwise keep the expired status.  Every path clears
the checking flag. -/
def handleExpiredStatus (od? : Option OrderDetails) (token : String)
    (store : Store) (queryResolveMs : Option Nat) : RecoveryResult :=
  match od? with
  | none => ⟨false, false, none, []⟩
  | some od =>
    if od.orderId = "" ∨ token = "" then ⟨false, false, none, []⟩
    else if raceTimedOut queryResolveMs then
      ⟨false, false, none, [toastRecoveryError]⟩
    else match dbSelect store od.orderId with
      | .error _ => ⟨false, false, none, [toastCheckStatusFailed]⟩
      | .ok results =>
        match results with
        | dbTransaction :: _ =>
          let updatedDetails : OrderDetails :=
            { od with
              currentStatus := "completed"
              rawApiResponse := match dbTransaction.raw_api_response with
                | some r => some r
                | none => od.rawApiResponse }
          ⟨true, false, some updatedDetails, []⟩
        | [] => ⟨false, false, none, []⟩

/-- The re-entry guard of the second `useEffect` (lines 186-197): the order is
expired (client status or upstream raw status) and the last-checked-id marker
differs from this order's id. -/
def shouldCheckExpiredStatus (od? : Option OrderDetails)
    (marker : Option String) : Bool :=
  match od? with
  | none => false
  | some od =>
    (od.currentStatus == "expired" ||
      (match od.rawApiResponse with
       | some r => r.status == some "EXPIRED"
       | none => false))
    && !(marker == some od.orderId)

/-- Modelled from the spec: the owner of `hasCheckedExpiredOrderRef` (the
parent page component, which is not under src/; this file only reads the
marker) records the order id in the marker when a recovery check is initiated,
so that each of the outcomes Recovered / NotFound / Error is terminal for that
id.  One step of the session: evaluate the guard on an order-details update
and, when it fires, enter the check and set the marker. -/
def sessionStep (marker : Option String) (e : Option OrderDetails) :
    Option String × Bool :=
  if shouldCheckExpiredStatus e marker then
    match e with
    | some od => (some od.orderId, true)
    | none => (marker, false)
  else (marker, false)

/-- Number of times the recovery check is entered over a sequence of
order-details updates, starting from a given marker. -/
def checkEntries : Option String → List (Option OrderDetails) → Nat
  | _, [] => 0
  | m, e :: es =>
    (if (sessionStep m e).2 then 1 else 0) + checkEntries (sessionStep m e).1 es

/-- JavaScript multiplication with NaN propagation. -/
def jsMul : JsNum → JsNum → JsNum
  | .num a, .num b => .num (a * b)
  | _, _ => .nan

/-- JavaScript division with NaN propagation (division by zero, which the
constant divisors of this code never produce, is mapped to NaN). -/
def jsDiv : JsNum → JsNum → JsNum
  | .num a, .num b => if b = 0 then .nan else .num (a / b)
  | _, _ => .nan

/-- Left-pad with zeros to a given width. -/
def padLeftZeros (s : String) (d : Nat) : String :=
  String.mk (List.replicate (d - s.length) '0') ++ s

/-- Model of `Number.prototype.toFixed(d)`: decimal rounding half away from
zero, rendered with exactly `d` fractional digits; "NaN" on NaN. -/
def jsToFixed (x : JsNum) (d : Nat) : String :=
  match x with
  | .nan => "NaN"
  | .num q =>
    let scaled : Rat := q * ((10 : Rat) ^ d)
    let r : Int := if 0 ≤ scaled then (scaled + 1/2).floor else -((1/2 - scaled).floor)
    let a := r.natAbs
    let sgnStr := if r < 0 then "-" else ""
    if d = 0 then sgnStr ++ toString a
    else sgnStr ++ toString (a / 10 ^ d) ++ "." ++ padLeftZeros (toString (a % 10 ^ d)) d

/-- One leg (`from` / `to`) of a price response.  String-typed numeric fields
of the source (`amount`) stay strings; the `rate` field, which the source
serializes with `toString()`, is carried as the underlying number. -/
structure PriceLeg where
  amount : String
  currency : String
  max : String
  min : String
  network : String
  rate : JsNum
  usd : JsNum
  btc : JsNum
deriving DecidableEq, Repr

/-- The `data` object of a price response (`from` is a Lean keyword, hence
`fromLeg` / `toLeg`). -/
structure PriceData where
  fromLeg : PriceLeg
  toLeg : PriceLeg
  errors : List String
deriving DecidableEq, Repr

/-- A price response as returned by `calculatePrice`. -/
structure PriceResponse where
  code : Int
  msg : String
  data : PriceData
  timestamp : Rat
  expiresAt : Rat
deriving DecidableEq, Repr

/-- Result of the `bridge-price` edge-function call: a transport error, a
missing body, or a response object (whose `code` field decides success). -/
inductive EdgeResult where
  | err (message : String)
  | noData
  | ok (resp : PriceResponse)
deriving DecidableEq, Repr

/-- Whether `calculatePrice` reaches its catch block and falls back to the
mock quote: any edge error, a missing body, or a non-zero response code. -/
def usesFallback : EdgeResult → Bool
  | .ok resp => resp.code ≠ 0
  | _ => true

/-- The fixed fallback rate table (line 207): 65000 when the source currency
is BTC, 3000 otherwise. -/
def mockRate (fromCurrency : String) : Nat :=
  if fromCurrency = "BTC" then 65000 else 3000

/-- OrderType parameter of `calculatePrice`. -/
inductive OrderType where
  | fixed
  | float
deriving DecidableEq, Repr

/-- The synthetic fallback quote (lines 206-241); `nowMs` is `Date.now()`. -/
def mockPriceResponse (fromCurrency toCurrency amount : String)
    (nowMs : Nat) : PriceResponse :=
  let rate : Rat := mockRate fromCurrency
  let fromAmount := parseFloatJs amount
  let toAmount : String :=
    if fromCurrency = "BTC" then jsToFixed (jsMul fromAmount (.num rate)) 2
    else jsToFixed (jsDiv fromAmount (.num rate)) 8
  { code := 0
    msg := "Success"
    data :=
      { fromLeg :=
          { amount := amount
            currency := fromCurrency
            max := "10"
            min := "0.001"
            network := "Network"
            rate := if fromCurrency = "BTC" then .num rate else .num (1 / rate)
            usd := jsMul fromAmount (.num rate)
            btc := if fromCurrency = "BTC" then fromAmount
              else jsDiv fromAmount (.num rate) }
        toLeg :=
          { amount := toAmount
            currency := toCurrency
            max := "1000000"
            min := "0.01"
            network := "Network"
            rate := if fromCurrency = "BTC" then .num (1 / rate) else .num rate
            usd := jsMul (parseFloatJs toAmount)
              (if toCurrency = "BTC" then .num rate else .num 1)
            btc := if toCurrency = "BTC" then parseFloatJs toAmount
              else jsDiv (parseFloatJs toAmount) (.num rate) }
        errors := [] }
    timestamp := (nowMs : Rat) / 1000
    expiresAt := (nowMs : Rat) / 1000 + 60 }

/-- `calculatePrice` (lines 146-246): null on the validity guard; otherwise
the backend response when it succeeds with code 0, and the synthetic mock
quote on any failure path. -/
def calculatePrice (backend : EdgeResult) (nowMs : Nat)
    (fromCurrency toCurrency amount : String) (orderType : OrderType) :
    Option PriceResponse :=
  if fromCurrency = "" ∨ toCurrency = "" ∨ amount = "" ∨
      jsLe0 (parseFloatJs amount) = true then none
  else
    some (match backend with
      | .ok resp =>
        if resp.code = 0 then resp
        else mockPriceResponse fromCurrency toCurrency amount nowMs
      | _ => mockPriceResponse fromCurrency toCurrency amount nowMs)

/-- A catalog entry (`Currency` of the bridge types) with the fields the swap
handler inspects. -/
structure Currency where
  symbol : String
  name : String
  network : String
  available : Bool
  color : String
  coin : String
  code : String
  send : Nat
  recv : Nat
deriving DecidableEq, Repr

/-- The slice of the bridge form state the swap handler touches. -/
structure FormState where
  fromCurrency : String
  toCurrency : String
  amount : String
deriving DecidableEq, Repr

/-- `handleSwapCurrencies` (lines 111-126 of the bridge form): swap only when
the current `toCurrency` exists in the catalog with send capability and the
current `fromCurrency` with receive capability; on swap, also reset the
amount. -/
def handleSwapCurrencies (availableCurrencies : List Currency)
    (s : FormState) : FormState :=
  let newFromCurrency := availableCurrencies.find?
    (fun c => c.code == s.toCurrency && c.send == 1)
  let newToCurrency := availableCurrencies.find?
    (fun c => c.code == s.fromCurrency && c.recv == 1)
  match newFromCurrency, newToCurrency with
  | some _, some _ =>
    { fromCurrency := s.toCurrency, toCurrency := s.fromCurrency, amount := "" }
  | _, _ => s

/-! Concrete sample data, used by the witness theorems below. -/

def sampleEnv : ClientEnv :=
  ⟨"UA", some ["en-US", "en"], "en-US", 800, 600, "linux", "vendor",
    "2026-01-01T00:00:00.000Z"⟩

def sampleRaw : RawResp := ⟨some "DONE", "payload-1"⟩

def sampleOrder : OrderDetails :=
  ⟨"FF-ABC123", "tok", "BTC", "ETH", "0.5", "dest-addr", "dep-addr",
    some "2026-01-01T01:00:00.000Z", "completed", some sampleRaw⟩

def emptyStore : Store := ⟨[], none, none, none⟩

def emptySaveState : SaveState := ⟨emptyStore, false, [], []⟩

def sampleRow : DbRecord := mkInsertRecord sampleOrder sampleEnv false

def updateFaultState : SaveState :=
  ⟨⟨[sampleRow], none, none, some ⟨"connection reset by peer"⟩⟩, false, [], []⟩

def insertFaultUnique : DbError :=
  ⟨"duplicate key value violates unique constraint bridge_transactions_pkey"⟩

def insertFaultOther : DbError :=
  ⟨"permission denied for table bridge_transactions"⟩

def insertFaultStateU : SaveState :=
  ⟨⟨[], none, some insertFaultUnique, none⟩, false, [], []⟩

def insertFaultStateO : SaveState :=
  ⟨⟨[], none, some insertFaultOther, none⟩, false, [], []⟩

def selectFaultState : SaveState :=
  ⟨⟨[], some ⟨"network unreachable"⟩, none, none⟩, false, [], []⟩

def expiredOrder : OrderDetails := { sampleOrder with currentStatus := "expired" }

def waitingOrder : OrderDetails := { sampleOrder with currentStatus := "waiting" }

def foundStore : Store := ⟨[sampleRow], none, none, none⟩

def sampleCatalog : List Currency :=
  [⟨"BTC", "Bitcoin", "Bitcoin", true, "#F7931A", "btc", "BTC", 1, 1⟩,
   ⟨"ETH", "Ethereum", "Ethereum", true, "#627EEA", "eth", "ETH", 1, 1⟩,
   ⟨"XMR", "Monero", "Monero", true, "#FF6600", "xmr", "XMR", 1, 0⟩]

/-! Helper lemmas about the store operations. -/

lemma countOrder_append (db1 db2 : List DbRecord) (oid : String) :
    countOrder (db1 ++ db2) oid = countOrder db1 oid + countOrder db2 oid := by
  simp [countOrder, List.filter_append]

lemma countOrder_eq_zero {db : List DbRecord} {oid : String} :
    countOrder db oid = 0 ↔ ∀ r ∈ db, ¬(r.ff_order_id = oid) := by
  simp [countOrder, List.length_eq_zero, List.filter_eq_nil_iff]

lemma filter_eq_nil_of_countOrder_zero {db : List DbRecord} {oid : String}
    (h : countOrder db oid = 0) :
    db.filter (fun r => r.ff_order_id == oid) = [] :=
  List.length_eq_zero.mp h

lemma updRow_ff_order_id (oid sts : String) (raw : RawResp) (r : DbRecord) :
    (if r.ff_order_id == oid then
      { r with status := sts, raw_api_response := some raw }
    else r).ff_order_id = r.ff_order_id := by
  by_cases h : r.ff_order_id = oid <;> simp [h]

lemma countOrder_updMap (db : List DbRecord) (oid oid' sts : String) (raw : RawResp) :
    countOrder (db.map (fun r =>
        if r.ff_order_id == oid then
          { r with status := sts, raw_api_response := some raw }
        else r)) oid'
      = countOrder db oid' := by
  induction db with
  | nil => rfl
  | cons r rs ih =>
    simp only [List.map_cons, countOrder, List.filter_cons, updRow_ff_order_id] at ih ⊢
    by_cases h' : r.ff_order_id = oid' <;> simp [h'] at ih ⊢ <;> omega

lemma mem_updMap_completed {db : List DbRecord} {oid sts : String} {raw : RawResp} :
    ∀ r ∈ db.map (fun q =>
        if q.ff_order_id == oid then
          { q with status := sts, raw_api_response := some raw }
        else q),
      r.ff_order_id = oid → r.status = sts ∧ r.raw_api_response = some raw := by
  intro r hr hid
  rcases List.mem_map.mp hr with ⟨q, hq, rfl⟩
  by_cases h : q.ff_order_id == oid
  · simp [h]
  · simp [h] at hid
    simp at h
    exact absurd hid h

lemma dbUpdate_db_none {s : Store} {oid sts : String} {raw : RawResp}
    (h : s.updateFault = none) :
    (dbUpdate s oid sts raw).1 = s.db.map (fun r =>
      if r.ff_order_id == oid then
        { r with status := sts, raw_api_response := some raw }
      else r) := by
  simp [dbUpdate, h]

lemma countOrder_dbUpdate (s : Store) (oid oid' sts : String) (raw : RawResp) :
    countOrder (dbUpdate s oid sts raw).1 oid' = countOrder s.db oid' := by
  unfold dbUpdate
  cases h : s.updateFault with
  | some e => rfl
  | none => simpa using countOrder_updMap s.db oid oid' sts raw

/-! Path-characterization lemmas for `saveTransaction`. -/

lemma saveTransaction_select_err (od : OrderDetails) (env : ClientEnv)
    (ss : Bool) (st : SaveState) (e : DbError)
    (hsel : st.store.selectFault = some e) :
    saveTransaction od env ss st =
      { st with toasts := st.toasts ++ [toastCheckFailed],
                ops := st.ops ++ [StoreOp.select od.orderId] } := by
  simp [saveTransaction, dbSelect, hsel]

lemma saveTransaction_insert_ok (od : OrderDetails) (env : ClientEnv)
    (ss : Bool) (st : SaveState)
    (hsel : st.store.selectFault = none)
    (h0 : countOrder st.store.db od.orderId = 0)
    (hins : st.store.insertFault = none) :
    saveTransaction od env ss st =
      { st with
          store := { st.store with db := st.store.db ++ [mkInsertRecord od env ss] },
          transactionSaved := true,
          ops := st.ops ++ [StoreOp.select od.orderId, StoreOp.insert od.orderId] } := by
  have hnil := filter_eq_nil_of_countOrder_zero h0
  have hany : st.store.db.any (fun q => q.ff_order_id == od.orderId) = false := by
    rw [List.any_eq_false]
    intro x hx
    simpa using countOrder_eq_zero.mp h0 x hx
  simp [saveTransaction, dbSelect, dbInsert, hsel, hins, hnil, hany, mkInsertRecord]

lemma saveTransaction_insert_err (od : OrderDetails) (env : ClientEnv)
    (ss : Bool) (st : SaveState) (e : DbError)
    (hsel : st.store.selectFault = none)
    (h0 : countOrder st.store.db od.orderId = 0)
    (hins : st.store.insertFault = some e) :
    saveTransaction od env ss st =
      (if isUniquenessViolation e then
        { st with transactionSaved := true,
                  ops := st.ops ++ [StoreOp.select od.orderId, StoreOp.insert od.orderId] }
      else
        { st with toasts := st.toasts ++ [toastSaveFailed],
                  ops := st.ops ++ [StoreOp.select od.orderId, StoreOp.insert od.orderId] }) := by
  have hnil := filter_eq_nil_of_countOrder_zero h0
  by_cases hu : isUniquenessViolation e <;>
    simp [saveTransaction, dbSelect, dbInsert, hsel, hins, hnil, hu] <;>
    rw [← hsel, ← hins]

lemma saveTransaction_update_path (od : OrderDetails) (env : ClientEnv)
    (ss : Bool) (st : SaveState) (raw : RawResp)
    (hsel : st.store.selectFault = none)
    (h0 : 0 < countOrder st.store.db od.orderId)
    (hraw : od.rawApiResponse = some raw) :
    saveTransaction od env ss st =
      { st with
          store := { st.store with
            db := (dbUpdate st.store od.orderId "completed" raw).1 },
          transactionSaved := true,
          ops := st.ops ++ [StoreOp.select od.orderId, StoreOp.update od.orderId] } := by
  simp [saveTransaction, dbSelect, hsel, hraw]
  intro hall
  exfalso
  have h2 : countOrder st.store.db od.orderId = 0 := countOrder_eq_zero.mpr hall
  omega

/-! Claim theorems. -/

/-- C1 — Save idempotence: with a fault-free store, running `saveTransaction`
twice for the same order never creates two records for its `orderId`: the
first run leaves exactly one record when none existed (and the existing count
otherwise), the second run issues only a select followed by an update (never
an insert), the record count is unchanged by the second run, and afterwards
every record for that id has status `completed` and the latest raw response. -/
theorem save_idempotent (od : OrderDetails) (env : ClientEnv) (ss : Bool)
    (st : SaveState) (raw : RawResp)
    (hsel : st.store.selectFault = none) (hins : st.store.insertFault = none)
    (hupd : st.store.updateFault = none) (hraw : od.rawApiResponse = some raw) :
    countOrder (saveTransaction od env ss (saveTransaction od env ss st)).store.db od.orderId
        = countOrder (saveTransaction od env ss st).store.db od.orderId ∧
    countOrder (saveTransaction od env ss st).store.db od.orderId
        = (if countOrder st.store.db od.orderId = 0 then 1
           else countOrder st.store.db od.orderId) ∧
    (saveTransaction od env ss (saveTransaction od env ss st)).ops
        = (saveTransaction od env ss st).ops
          ++ [StoreOp.select od.orderId, StoreOp.update od.orderId] ∧
    ∀ r ∈ (saveTransaction od env ss (saveTransaction od env ss st)).store.db,
      r.ff_order_id = od.orderId → r.status = "completed" ∧ r.raw_api_response = some raw := by
  by_cases h0 : countOrder st.store.db od.orderId = 0
  · have e1 := saveTransaction_insert_ok od env ss st hsel h0 hins
    have hdb1 : (saveTransaction od env ss st).store.db
        = st.store.db ++ [mkInsertRecord od env ss] := by rw [e1]
    have hsel1 : (saveTransaction od env ss st).store.selectFault = none := by
      rw [e1]; exact hsel
    have hupd1 : (saveTransaction od env ss st).store.updateFault = none := by
      rw [e1]; exact hupd
    have hcount1 : countOrder (saveTransaction od env ss st).store.db od.orderId = 1 := by
      rw [hdb1, countOrder_append, h0]
      simp [countOrder, mkInsertRecord]
    have e2 := saveTransaction_update_path od env ss (saveTransaction od env ss st) raw
      hsel1 (by omega) hraw
    have hdb2 : (saveTransaction od env ss (saveTransaction od env ss st)).store.db
        = (saveTransaction od env ss st).store.db.map (fun r =>
            if r.ff_order_id == od.orderId then
              { r with status := "completed", raw_api_response := some raw }
            else r) := by
      rw [e2]; exact dbUpdate_db_none hupd1
    refine ⟨?_, ?_, ?_, ?_⟩
    · rw [hdb2]; exact countOrder_updMap _ _ _ _ _
    · rw [hcount1, if_pos h0]
    · rw [e2]
    · intro r hr hid
      rw [hdb2] at hr
      exact mem_updMap_completed r hr hid
  · have hpos : 0 < countOrder st.store.db od.orderId := Nat.pos_of_ne_zero h0
    have e1 := saveTransaction_update_path od env ss st raw hsel hpos hraw
    have hdb1 : (saveTransaction od env ss st).store.db
        = st.store.db.map (fun r =>
            if r.ff_order_id == od.orderId then
              { r with status := "completed", raw_api_response := some raw }
            else r) := by
      rw [e1]; exact dbUpdate_db_none hupd
    have hsel1 : (saveTransaction od env ss st).store.selectFault = none := by
      rw [e1]; exact hsel
    have hupd1 : (saveTransaction od env ss st).store.updateFault = none := by
      rw [e1]; exact hupd
    have hcount1 : countOrder (saveTransaction od env ss st).store.db od.orderId
        = countOrder st.store.db od.orderId := by
      rw [hdb1]; exact countOrder_updMap _ _ _ _ _
    have e2 := saveTransaction_update_path od env ss (saveTransaction od env ss st) raw
      hsel1 (by omega) hraw
    have hdb2 : (saveTransaction od env ss (saveTransaction od env ss st)).store.db
        = (saveTransaction od env ss st).store.db.map (fun r =>
            if r.ff_order_id == od.orderId then
              { r with status := "completed", raw_api_response := some raw }
            else r) := by
      rw [e2]; exact dbUpdate_db_none hupd1
    refine ⟨?_, ?_, ?_, ?_⟩
    · rw [hdb2]; exact countOrder_updMap _ _ _ _ _
    · rw [hcount1, if_neg h0]
    · rw [e2]
    · intro r hr hid
      rw [hdb2] at hr
      exact mem_updMap_completed r hr hid

/-- Witness for C1 at a concrete order, environment and empty store. -/
theorem save_idempotent_check :
    countOrder (saveTransaction sampleOrder sampleEnv false
        (saveTransaction sampleOrder sampleEnv false emptySaveState)).store.db
        sampleOrder.orderId
      = countOrder (saveTransaction sampleOrder sampleEnv false emptySaveState).store.db
        sampleOrder.orderId ∧
    countOrder (saveTransaction sampleOrder sampleEnv false emptySaveState).store.db
        sampleOrder.orderId
      = (if countOrder emptySaveState.store.db sampleOrder.orderId = 0 then 1
         else countOrder emptySaveState.store.db sampleOrder.orderId) ∧
    (saveTransaction sampleOrder sampleEnv false
        (saveTransaction sampleOrder sampleEnv false emptySaveState)).ops
      = (saveTransaction sampleOrder sampleEnv false emptySaveState).ops
        ++ [StoreOp.select sampleOrder.orderId, StoreOp.update sampleOrder.orderId] ∧
    ∀ r ∈ (saveTransaction sampleOrder sampleEnv false
        (saveTransaction sampleOrder sampleEnv false emptySaveState)).store.db,
      r.ff_order_id = sampleOrder.orderId →
        r.status = "completed" ∧ r.raw_api_response = some sampleRaw :=
  save_idempotent sampleOrder sampleEnv false emptySaveState sampleRaw rfl rfl rfl rfl

/-- C2 — Save preconditions gate all writes: whenever simulate mode is on, the
transaction is already marked saved, the order or its id is missing, the
status is not `completed`, or the raw response is absent, the save effect is a
silent no-op: the whole observable state (store contents, saved flag, toasts,
trace of issued store operations) is returned unchanged. -/
theorem save_preconditions_gate (simulateSuccess : Bool) (od? : Option OrderDetails)
    (env : ClientEnv) (st : SaveState)
    (h : simulateSuccess = true ∨ st.transactionSaved = true ∨ od? = none ∨
      ∀ od, od? = some od →
        od.orderId = "" ∨ od.currentStatus ≠ "completed" ∨ od.rawApiResponse = none) :
    runSaveEffect simulateSuccess od? env st = st := by
  rcases h with h | h | h | h
  · simp [runSaveEffect, h]
  · by_cases hss : simulateSuccess <;> simp [runSaveEffect, hss, h]
  · subst h
    by_cases hss : simulateSuccess <;> by_cases hsv : st.transactionSaved <;>
      simp [runSaveEffect, hss, hsv]
  · by_cases hss : simulateSuccess
    · simp [runSaveEffect, hss]
    · by_cases hsv : st.transactionSaved
      · simp [runSaveEffect, hss, hsv]
      · cases od? with
        | none => simp [runSaveEffect, hss, hsv]
        | some od =>
          rcases h od rfl with h1 | h1 | h1
          · simp [runSaveEffect, hss, hsv, h1]
          · by_cases h2 : od.orderId = "" <;>
              simp [runSaveEffect, hss, hsv, h1, h2]
          · by_cases h2 : od.orderId = "" <;>
              by_cases h3 : od.currentStatus = "completed" <;>
              simp [runSaveEffect, hss, hsv, h1, h2, h3]

/-- Witness for C2 at a concrete non-completed order. -/
theorem save_preconditions_gate_check :
    runSaveEffect false (some waitingOrder) sampleEnv emptySaveState = emptySaveState :=
  save_preconditions_gate false (some waitingOrder) sampleEnv emptySaveState
    (Or.inr (Or.inr (Or.inr (fun od h => by
      injection h with h'
      subst h'
      exact Or.inr (Or.inl (by decide))))))

/-- C3 — Uniqueness violation treated as success: when the insert fails with
an error classified as a duplicate-key / unique-constraint violation, the
saved flag is set and no notification is shown; when it fails with any other
error, a database-error notification is shown and the saved flag is left
unchanged. -/
theorem unique_violation_treated_as_success (od : OrderDetails) (env : ClientEnv)
    (ss : Bool) (st : SaveState) (e : DbError)
    (hsel : st.store.selectFault = none)
    (h0 : countOrder st.store.db od.orderId = 0)
    (hins : st.store.insertFault = some e) :
    (isUniquenessViolation e = true →
      (saveTransaction od env ss st).transactionSaved = true ∧
      (saveTransaction od env ss st).toasts = st.toasts) ∧
    (isUniquenessViolation e = false →
      (saveTransaction od env ss st).toasts = st.toasts ++ [toastSaveFailed] ∧
      (saveTransaction od env ss st).transactionSaved = st.transactionSaved) := by
  have e1 := saveTransaction_insert_err od env ss st e hsel h0 hins
  constructor
  · intro hu
    rw [e1, if_pos hu]
    exact ⟨rfl, rfl⟩
  · intro hu
    rw [e1, if_neg (by simp [hu])]
    exact ⟨rfl, rfl⟩

/-- Witness for C3: a duplicate-key insert error sets the saved flag without a
toast; a permission error toasts and leaves the flag unset. -/
theorem unique_violation_treated_as_success_check :
    ((saveTransaction sampleOrder sampleEnv false insertFaultStateU).transactionSaved = true ∧
     (saveTransaction sampleOrder sampleEnv false insertFaultStateU).toasts
        = insertFaultStateU.toasts) ∧
    ((saveTransaction sampleOrder sampleEnv false insertFaultStateO).toasts
        = insertFaultStateO.toasts ++ [toastSaveFailed] ∧
     (saveTransaction sampleOrder sampleEnv false insertFaultStateO).transactionSaved
        = insertFaultStateO.transactionSaved) :=
  ⟨(unique_violation_treated_as_success sampleOrder sampleEnv false insertFaultStateU
      insertFaultUnique rfl rfl rfl).1 (by decide),
   (unique_violation_treated_as_success sampleOrder sampleEnv false insertFaultStateO
      insertFaultOther rfl rfl rfl).2 (by decide)⟩

/-- C8 counterexample: a store error during save that produces no
notification and still sets the saved flag.  With an existing record for the
order and an injected update fault, `saveTransaction` issues an update that
fails, emits no toast, and sets `transactionSaved` anyway — refuting "every
store error encountered during save is converted into a notification" and
"every save that encounters a store error leaves the saved flag unset". -/
theorem save_update_error_silent_cex :
    updateFaultState.store.updateFault = some ⟨"connection reset by peer"⟩ ∧
    (saveTransaction sampleOrder sampleEnv false updateFaultState).ops
      = [StoreOp.select "FF-ABC123", StoreOp.update "FF-ABC123"] ∧
    (saveTransaction sampleOrder sampleEnv false updateFaultState).toasts = [] ∧
    (saveTransaction sampleOrder sampleEnv false updateFaultState).transactionSaved = true :=
  ⟨rfl, rfl, rfl, rfl⟩

/-- C8 (amended) — Error propagation policy of the save operation: a select
error and a non-uniqueness insert error are each caught and surfaced as a
database-error notification and leave the saved flag unchanged (so the save
is retried on the next qualifying state change); but an error on the update
of an already-existing record is only logged: it produces no notification and
the saved flag is set regardless. -/
theorem save_error_policy_amended (od : OrderDetails) (env : ClientEnv) (ss : Bool) :
    (∀ st : SaveState, ∀ e : DbError, st.store.selectFault = some e →
      (saveTransaction od env ss st).toasts = st.toasts ++ [toastCheckFailed] ∧
      (saveTransaction od env ss st).transactionSaved = st.transactionSaved) ∧
    (∀ st : SaveState, ∀ e : DbError, st.store.selectFault = none →
      countOrder st.store.db od.orderId = 0 → st.store.insertFault = some e →
      isUniquenessViolation e = false →
      (saveTransaction od env ss st).toasts = st.toasts ++ [toastSaveFailed] ∧
      (saveTransaction od env ss st).transactionSaved = st.transactionSaved) ∧
    (∀ st : SaveState, ∀ e : DbError, ∀ raw : RawResp, st.store.selectFault = none →
      0 < countOrder st.store.db od.orderId → od.rawApiResponse = some raw →
      st.store.updateFault = some e →
      (saveTransaction od env ss st).toasts = st.toasts ∧
      (saveTransaction od env ss st).transactionSaved = true) := by
  refine ⟨?_, ?_, ?_⟩
  · intro st e hsel
    rw [saveTransaction_select_err od env ss st e hsel]
    exact ⟨rfl, rfl⟩
  · intro st e hsel h0 hins hu
    rw [saveTransaction_insert_err od env ss st e hsel h0 hins, if_neg (by simp [hu])]
    exact ⟨rfl, rfl⟩
  · intro st e raw hsel hpos hraw hupd
    rw [saveTransaction_update_path od env ss st raw hsel hpos hraw]
    exact ⟨rfl, rfl⟩

/-- Witness for the amended C8 at concrete fault configurations. -/
theorem save_error_policy_amended_check :
    ((saveTransaction sampleOrder sampleEnv false selectFaultState).toasts
        = selectFaultState.toasts ++ [toastCheckFailed] ∧
      (saveTransaction sampleOrder sampleEnv false selectFaultState).transactionSaved
        = selectFaultState.transactionSaved) ∧
    ((saveTransaction sampleOrder sampleEnv false insertFaultStateO).toasts
        = insertFaultStateO.toasts ++ [toastSaveFailed] ∧
      (saveTransaction sampleOrder sampleEnv false insertFaultStateO).transactionSaved
        = insertFaultStateO.transactionSaved) ∧
    ((saveTransaction sampleOrder sampleEnv false updateFaultState).toasts
        = updateFaultState.toasts ∧
      (saveTransaction sampleOrder sampleEnv false updateFaultState).transactionSaved
        = true) :=
  ⟨(save_error_policy_amended sampleOrder sampleEnv false).1
      selectFaultState ⟨"network unreachable"⟩ rfl,
   (save_error_policy_amended sampleOrder sampleEnv false).2.1
      insertFaultStateO insertFaultOther rfl rfl rfl (by decide),
   (save_error_policy_amended sampleOrder sampleEnv false).2.2
      updateFaultState ⟨"connection reset by peer"⟩ sampleRaw rfl (by decide) rfl rfl⟩

/-- C4 — Recovery on found record: for an expired order whose id has a record
in the store (non-empty id and token, query resolving within the timeout, no
select fault), `handleExpiredStatus` returns recovered, clears the checking
flag, emits no notification, and passes to `onOrderDetailsUpdate` the order
with `currentStatus = "completed"` and `rawApiResponse` taken from the
persisted record (falling back to the order's own response when the persisted
one is absent), every other field unchanged. -/
theorem recovery_found_record (od : OrderDetails) (token : String) (store : Store)
    (queryResolveMs : Option Nat) (r : DbRecord)
    (hid : od.orderId ≠ "") (htok : token ≠ "")
    (ht : raceTimedOut queryResolveMs = false)
    (hsel : store.selectFault = none)
    (hr : firstMatch store.db od.orderId = some r) :
    handleExpiredStatus (some od) token store queryResolveMs =
      { recovered := true
        checkingDb := false
        orderUpdate := some { od with
          currentStatus := "completed"
          rawApiResponse := match r.raw_api_response with
            | some x => some x
            | none => od.rawApiResponse }
        toasts := [] } := by
  have hcons : ∃ tl, store.db.filter (fun q => q.ff_order_id == od.orderId) = r :: tl := by
    unfold firstMatch at hr
    cases hfil : store.db.filter (fun q => q.ff_order_id == od.orderId) with
    | nil => rw [hfil] at hr; simp at hr
    | cons a tl =>
      rw [hfil] at hr
      simp at hr
      exact ⟨tl, by rw [hr]⟩
  rcases hcons with ⟨tl, hfil⟩
  simp [handleExpiredStatus, hid, htok, ht, dbSelect, hsel, hfil]

/-- Witness for C4 at a concrete expired order and a store containing its
record. -/
theorem recovery_found_record_check :
    handleExpiredStatus (some expiredOrder) "tok" foundStore (some 100) =
      { recovered := true
        checkingDb := false
        orderUpdate := some { expiredOrder with
          currentStatus := "completed"
          rawApiResponse := match sampleRow.raw_api_response with
            | some x => some x
            | none => expiredOrder.rawApiResponse }
        toasts := [] } :=
  recovery_found_record expiredOrder "tok" foundStore (some 100) sampleRow
    (by decide) (by decide) (by decide) rfl rfl

/-- C5 — Recovery on missing record: for an expired order whose id has no
record in the store (non-empty id and token, query resolving within the
timeout, no select fault), `handleExpiredStatus` performs no order mutation
(`onOrderDetailsUpdate` is never called), emits no notification, clears the
checking flag, and returns not recovered. -/
theorem recovery_missing_record (od : OrderDetails) (token : String) (store : Store)
    (queryResolveMs : Option Nat)
    (hid : od.orderId ≠ "") (htok : token ≠ "")
    (ht : raceTimedOut queryResolveMs = false)
    (hsel : store.selectFault = none)
    (h0 : countOrder store.db od.orderId = 0) :
    handleExpiredStatus (some od) token store queryResolveMs =
      { recovered := false, checkingDb := false, orderUpdate := none, toasts := [] } := by
  have hfil := filter_eq_nil_of_countOrder_zero h0
  simp [handleExpiredStatus, hid, htok, ht, dbSelect, hsel, hfil]

/-- Witness for C5 at a concrete expired order and an empty store. -/
theorem recovery_missing_record_check :
    handleExpiredStatus (some expiredOrder) "tok" emptyStore (some 100) =
      { recovered := false, checkingDb := false, orderUpdate := none, toasts := [] } :=
  recovery_missing_record expiredOrder "tok" emptyStore (some 100)
    (by decide) (by decide) (by decide) rfl rfl

/-- C6 — Recovery timeout: the recovery query is raced against the fixed
2000 ms timer; when the query does not resolve within that timeout (for an
order that passes the guard), the operation terminates with the timeout
outcome — an error notification, checking flag cleared, not recovered, no
order mutation — and the store's (slower) result is discarded: the outcome is
the same for every store. -/
theorem recovery_timeout (od : OrderDetails) (token : String) (store : Store)
    (queryResolveMs : Option Nat)
    (hid : od.orderId ≠ "") (htok : token ≠ "")
    (ht : raceTimedOut queryResolveMs = true) :
    dbQueryTimeoutMs = 2000 ∧
    handleExpiredStatus (some od) token store queryResolveMs =
      { recovered := false, checkingDb := false, orderUpdate := none,
        toasts := [toastRecoveryError] } ∧
    ∀ store' : Store,
      handleExpiredStatus (some od) token store queryResolveMs
        = handleExpiredStatus (some od) token store' queryResolveMs := by
  refine ⟨rfl, ?_, ?_⟩
  · simp [handleExpiredStatus, hid, htok, ht]
  · intro store'
    simp [handleExpiredStatus, hid, htok, ht]

/-- Witness for C6: a query that never resolves. -/
theorem recovery_timeout_check :
    dbQueryTimeoutMs = 2000 ∧
    handleExpiredStatus (some expiredOrder) "tok" foundStore none =
      { recovered := false, checkingDb := false, orderUpdate := none,
        toasts := [toastRecoveryError] } ∧
    ∀ store' : Store,
      handleExpiredStatus (some expiredOrder) "tok" foundStore none
        = handleExpiredStatus (some expiredOrder) "tok" store' none :=
  recovery_timeout expiredOrder "tok" foundStore none (by decide) (by decide) rfl

/-- Over a sequence of order-details updates that all carry the same order id,
the recovery check is never entered when the marker already holds that id,
and is entered at most once from any marker. -/
lemma checkEntries_same_id :
    ∀ (events : List (Option OrderDetails)) (oid : String),
      (∀ od, some od ∈ events → od.orderId = oid) →
      checkEntries (some oid) events = 0 ∧ ∀ m, checkEntries m events ≤ 1 := by
  intro events
  induction events with
  | nil =>
    intro oid h
    exact ⟨rfl, fun m => by simp [checkEntries]⟩
  | cons e es ih =>
    intro oid h
    have h' : ∀ od, some od ∈ es → od.orderId = oid :=
      fun od hm => h od (List.mem_cons_of_mem _ hm)
    obtain ⟨ih0, ih1⟩ := ih oid h'
    constructor
    · cases e with
      | none => simpa [checkEntries, sessionStep, shouldCheckExpiredStatus] using ih0
      | some od =>
        have hoid : od.orderId = oid := h od (List.mem_cons_self _ _)
        simpa [checkEntries, sessionStep, shouldCheckExpiredStatus, hoid] using ih0
    · intro m
      cases e with
      | none =>
        simpa [checkEntries, sessionStep, shouldCheckExpiredStatus] using ih1 m
      | some od =>
        have hoid : od.orderId = oid := h od (List.mem_cons_self _ _)
        by_cases hc : shouldCheckExpiredStatus (some od) m = true
        · simp [checkEntries, sessionStep, hc, hoid, ih0]
        · simpa [checkEntries, sessionStep, hc] using ih1 m

/-- C7 — Single-entry recovery per order id: starting from a fresh session
(empty last-checked marker), over any sequence of order-details updates that
all concern the same order id, the recovery check is entered at most once;
once entered, the marker equals that id and blocks every later entry,
whatever the outcome of the check was. -/
theorem expired_check_single_entry (events : List (Option OrderDetails)) (oid : String)
    (h : ∀ od, some od ∈ events → od.orderId = oid) :
    checkEntries none events ≤ 1 :=
  (checkEntries_same_id events oid h).2 none

/-- Witness for C7: two consecutive expired updates for the same order yield
a single entry. -/
theorem expired_check_single_entry_check :
    checkEntries none [some expiredOrder, some expiredOrder] ≤ 1 :=
  expired_check_single_entry [some expiredOrder, some expiredOrder] "FF-ABC123"
    (fun od hm => by
      simp at hm
      subst hm
      rfl)

/-- C9 — Quote totality and null contract: `calculatePrice` returns `none`
exactly when a currency is missing, the amount is missing, or the parsed
amount is non-positive; for every other input whose backend call fails (edge
error, missing body, or non-zero response code) it returns the synthetic
fallback quote, which is built from the fixed rate table: 65000 when the
source currency is BTC and 3000 otherwise. -/
theorem quote_totality_null_contract (backend : EdgeResult) (nowMs : Nat)
    (fromCurrency toCurrency amount : String) (orderType : OrderType) :
    (calculatePrice backend nowMs fromCurrency toCurrency amount orderType = none ↔
      (fromCurrency = "" ∨ toCurrency = "" ∨ amount = "" ∨
        jsLe0 (parseFloatJs amount) = true)) ∧
    (usesFallback backend = true →
      ¬(fromCurrency = "" ∨ toCurrency = "" ∨ amount = "" ∨
        jsLe0 (parseFloatJs amount) = true) →
      calculatePrice backend nowMs fromCurrency toCurrency amount orderType
        = some (mockPriceResponse fromCurrency toCurrency amount nowMs)) ∧
    mockRate "BTC" = 65000 ∧ (∀ c, c ≠ "BTC" → mockRate c = 3000) := by
  refine ⟨?_, ?_, rfl, ?_⟩
  · constructor
    · intro hnone
      by_contra hc
      simp only [calculatePrice, if_neg hc] at hnone
      exact Option.noConfusion hnone
    · intro hcond
      simp only [calculatePrice, if_pos hcond]
  · intro hfb hv
    simp only [calculatePrice, if_neg hv]
    cases backend with
    | ok resp =>
      simp only [usesFallback, decide_eq_true_eq] at hfb
      simp [hfb]
    | err m => rfl
    | noData => rfl
  · intro c hc
    simp [mockRate, hc]

/-- Witness for C9: a failing backend with a valid request yields the mock
quote. -/
theorem quote_totality_null_contract_check :
    calculatePrice (EdgeResult.err "edge function down") 1700000000000 "BTC" "ETH" "1"
        OrderType.fixed
      = some (mockPriceResponse "BTC" "ETH" "1" 1700000000000) :=
  (quote_totality_null_contract (EdgeResult.err "edge function down") 1700000000000
      "BTC" "ETH" "1" OrderType.fixed).2.1 rfl (by decide)

/-- C10 — Currency-swap guard: the swap handler exchanges the two currencies
and clears the amount exactly when the catalog has the current `toCurrency`
with send capability and the current `fromCurrency` with receive capability;
when either lookup fails it leaves the form state entirely unchanged. -/
theorem swap_currencies_guard (cs : List Currency) (s : FormState) :
    (((∃ c ∈ cs, c.code = s.toCurrency ∧ c.send = 1) ∧
      (∃ c ∈ cs, c.code = s.fromCurrency ∧ c.recv = 1)) →
      handleSwapCurrencies cs s =
        { fromCurrency := s.toCurrency, toCurrency := s.fromCurrency, amount := "" }) ∧
    (¬((∃ c ∈ cs, c.code = s.toCurrency ∧ c.send = 1) ∧
      (∃ c ∈ cs, c.code = s.fromCurrency ∧ c.recv = 1)) →
      handleSwapCurrencies cs s = s) := by
  have hfromEx : (cs.find? (fun c => c.code == s.toCurrency && c.send == 1)).isSome ↔
      ∃ c ∈ cs, c.code = s.toCurrency ∧ c.send = 1 := by
    rw [List.find?_isSome]
    constructor
    · rintro ⟨c, hm, hp⟩
      simp at hp
      exact ⟨c, hm, hp⟩
    · rintro ⟨c, hm, h1, h2⟩
      exact ⟨c, hm, by simp [h1, h2]⟩
  have htoEx : (cs.find? (fun c => c.code == s.fromCurrency && c.recv == 1)).isSome ↔
      ∃ c ∈ cs, c.code = s.fromCurrency ∧ c.recv = 1 := by
    rw [List.find?_isSome]
    constructor
    · rintro ⟨c, hm, hp⟩
      simp at hp
      exact ⟨c, hm, hp⟩
    · rintro ⟨c, hm, h1, h2⟩
      exact ⟨c, hm, by simp [h1, h2]⟩
  constructor
  · rintro ⟨hex1, hex2⟩
    obtain ⟨c1, hc1⟩ := Option.isSome_iff_exists.mp (hfromEx.mpr hex1)
    obtain ⟨c2, hc2⟩ := Option.isSome_iff_exists.mp (htoEx.mpr hex2)
    simp [handleSwapCurrencies, hc1, hc2]
  · intro hneg
    rcases not_and_or.mp hneg with hn | hn
    · have : cs.find? (fun c => c.code == s.toCurrency && c.send == 1) = none := by
        rw [← Option.not_isSome_iff_eq_none]
        exact fun hs => hn (hfromEx.mp hs)
      simp [handleSwapCurrencies, this]
    · have h2 : cs.find? (fun c => c.code == s.fromCurrency && c.recv == 1) = none := by
        rw [← Option.not_isSome_iff_eq_none]
        exact fun hs => hn (htoEx.mp hs)
      cases h1 : cs.find? (fun c => c.code == s.toCurrency && c.send == 1) <;>
        simp [handleSwapCurrencies, h1, h2]

/-- Witness for C10: in a catalog where BTC and ETH can both be sent and
received, the swap fires; with XMR (send-only) as the from-currency the state
is unchanged. -/
theorem swap_currencies_guard_check :
    handleSwapCurrencies sampleCatalog ⟨"BTC", "ETH", "1.0"⟩ =
      { fromCurrency := "ETH", toCurrency := "BTC", amount := "" } ∧
    handleSwapCurrencies sampleCatalog ⟨"XMR", "ETH", "1.0"⟩ = ⟨"XMR", "ETH", "1.0"⟩ :=
  ⟨(swap_currencies_guard sampleCatalog ⟨"BTC", "ETH", "1.0"⟩).1
      ⟨⟨sampleCatalog.get ⟨1, by decide⟩, by decide, by decide, by decide⟩,
       ⟨sampleCatalog.get ⟨0, by decide⟩, by decide, by decide, by decide⟩⟩,
   (swap_currencies_guard sampleCatalog ⟨"XMR", "ETH", "1.0"⟩).2
      (by
        rintro ⟨-, c, hm, h1, h2⟩
        fin_cases hm <;> simp_all)⟩
